import Mathlib

/-!
Verification of the probability-estimation core of the Nasa-App repository.

Sources embedded here (shallow embedding, exact-rational semantics for
Python floats):
  * `src/lib/merra2_data_service.py` — grid-sample risk estimator
    (`calculate_weather_risks`), orchestration (`get_weather_probabilities`)
    and the synthetic fallback (`_fallback_probabilities`).
  * `src/lib/weather_model.py` — historical-distribution estimator
    (`probability_calculator`, `get_weather_probabilities`).

The fallback draws its values from `np.random.default_rng(seed).uniform`.
numpy's generator is external library code; it is modelled concretely below
(SeedSequence entropy mixing + PCG64 with XSL-RR output + the 53-bit
double construction), so that the fallback's outputs are closed rational
numbers.  The model was checked against the documented numpy outputs of
`default_rng(0).random()`, `default_rng(42).random()` and
`default_rng(12345).random()`.
-/

/-- Reduction modulo 2^32 (uint32 arithmetic). -/
def u32 (n : ℕ) : ℕ := n % 4294967296

/-- Reduction modulo 2^64 (uint64 arithmetic). -/
def u64 (n : ℕ) : ℕ := n % 18446744073709551616

/-- Reduction modulo 2^128 (the PCG64 state space). -/
def u128 (n : ℕ) : ℕ := n % 340282366920938463463374607431768211456

/-- numpy `SeedSequence` hash step: `value ^= hash_const; hash_const *= MULT_A;
value *= hash_const; value ^= value >> XSHIFT` on uint32, with
`MULT_A = 0x931e8875` and `XSHIFT = 16`.  Returns the hashed value and the
advanced hash constant. -/
def hashmix (value hc : ℕ) : ℕ × ℕ :=
  let value := value ^^^ hc
  let hc := u32 (hc * 0x931e8875)
  let value := u32 (value * hc)
  let value := value ^^^ (value >>> 16)
  (value, hc)

/-- numpy `SeedSequence` mix step: `result = MIX_MULT_L*x - MIX_MULT_R*y;
result ^= result >> XSHIFT` on uint32, with `MIX_MULT_L = 0xca01f9dd`,
`MIX_MULT_R = 0x4973f715`. -/
def mixPair (x y : ℕ) : ℕ :=
  let r := u32 (u32 (x * 0xca01f9dd) + 4294967296 - u32 (y * 0x4973f715))
  r ^^^ (r >>> 16)

/-- Little-endian uint32 words of a natural number (numpy
`_int_to_uint32_array` applied to a nonnegative Python int); the fuel
argument bounds the word count (64 words cover every integer below
2^2048, far beyond any seed this program can build). -/
def wordsAux : ℕ → ℕ → List ℕ
  | 0, _ => []
  | _ + 1, 0 => []
  | fuel + 1, n => (n % 4294967296) :: wordsAux fuel (n / 4294967296)

/-- numpy turns the integer entropy into a uint32 word list; the integer 0
becomes the single word `[0]`. -/
def uint32Words (n : ℕ) : List ℕ :=
  if n = 0 then [0] else wordsAux 64 n

/-- numpy `SeedSequence.mix_entropy` with the default pool size 4:
a first pass fills the pool from the entropy words (padding with hashed
zeros), a second pass cross-mixes every pool slot into every other, and a
third pass folds any entropy words beyond the pool size into all slots.
`INIT_A = 0x43b0d7e5`. -/
def mixEntropy (ent : List ℕ) : List ℕ :=
  let first := (List.range 4).foldl
    (fun (acc : List ℕ × ℕ) i =>
      let (v, hc) := hashmix (ent.getD i 0) acc.2
      (acc.1 ++ [v], hc))
    ([], 0x43b0d7e5)
  let second := (List.range 4).foldl
    (fun acc isrc =>
      (List.range 4).foldl
        (fun (acc : List ℕ × ℕ) idst =>
          if isrc = idst then acc
          else
            let (v, hc) := hashmix (acc.1.getD isrc 0) acc.2
            (acc.1.set idst (mixPair (acc.1.getD idst 0) v), hc))
        acc)
    first
  let third := (List.range' 4 (ent.length - 4)).foldl
    (fun acc isrc =>
      (List.range 4).foldl
        (fun (acc : List ℕ × ℕ) idst =>
          let (v, hc) := hashmix (ent.getD isrc 0) acc.2
          (acc.1.set idst (mixPair (acc.1.getD idst 0) v), hc))
        acc)
    second
  third.1

/-- numpy `SeedSequence.generate_state(4, uint64)`, as its eight uint32
words: cycles over the pool, hashing with constants `INIT_B = 0x8b51f9dd`
and `MULT_B = 0x58f38ded`. -/
def generateState8 (pool : List ℕ) : List ℕ :=
  ((List.range 8).foldl
    (fun (acc : List ℕ × ℕ) i =>
      let dv := (pool.getD (i % 4) 0) ^^^ acc.2
      let hc := u32 (acc.2 * 0x58f38ded)
      let dv := u32 (dv * hc)
      let dv := dv ^^^ (dv >>> 16)
      (acc.1 ++ [dv], hc))
    ([], 0x8b51f9dd)).1

/-- The default PCG64 multiplier `PCG_DEFAULT_MULTIPLIER_128`. -/
def pcgMult : ℕ := 0x2360ed051fc65da44385df649fccf645

/-- One PCG64 LCG step on the 128-bit state. -/
def pcgStep (state inc : ℕ) : ℕ := u128 (state * pcgMult + inc)

/-- Right rotation of a uint64 by `r ∈ [0, 63]` bits. -/
def rotr64 (v r : ℕ) : ℕ := (v >>> r) ||| u64 (v <<< ((64 - r) % 64))

/-- PCG64 XSL-RR output function: xor of the state halves, rotated by the
top six state bits. -/
def pcgOutput (state : ℕ) : ℕ :=
  rotr64 ((state >>> 64) ^^^ u64 state) (state >>> 122)

/-- PCG64 seeding (`pcg_setseq_128_srandom_r`): the increment is the odd
version of the stream id, and the state is stepped, offset by the seed,
and stepped again.  Returns `(state, inc)`. -/
def pcgInitState (initstate initseq : ℕ) : ℕ × ℕ :=
  let inc := u128 (initseq <<< 1) ||| 1
  let s := pcgStep 0 inc
  let s := pcgStep (u128 (s + initstate)) inc
  (s, inc)

/-- The PCG64 state/increment pair that `np.random.default_rng(seed)`
starts from: the seed's entropy is mixed into the pool, eight uint32 state
words are generated and packed little-endian into four uint64 words, and
the first two (high word first) form the 128-bit seed while the last two
form the 128-bit stream id. -/
def npSeedState (seed : ℕ) : ℕ × ℕ :=
  let w := generateState8 (mixEntropy (uint32Words seed))
  let s0 := w.getD 0 0 + (w.getD 1 0) * 4294967296
  let s1 := w.getD 2 0 + (w.getD 3 0) * 4294967296
  let s2 := w.getD 4 0 + (w.getD 5 0) * 4294967296
  let s3 := w.getD 6 0 + (w.getD 7 0) * 4294967296
  pcgInitState (s0 * 18446744073709551616 + s1) (s2 * 18446744073709551616 + s3)

/-- The PCG64 state after `i` draws from `np.random.default_rng(seed)`. -/
def pcgStateAfter (seed : ℕ) : ℕ → ℕ
  | 0 => (npSeedState seed).1
  | i + 1 => pcgStep (pcgStateAfter seed i) (npSeedState seed).2

/-- The `i`-th raw uint64 output of `np.random.default_rng(seed)`
(`pcg64_next64` steps the state and then applies the output function). -/
def npRaw (seed i : ℕ) : ℕ := pcgOutput (pcgStateAfter seed (i + 1))

/-- The `i`-th double in `[0, 1)` drawn from `np.random.default_rng(seed)`
(`pcg64_next_double`: the top 53 bits of the raw draw over 2^53); this is
an exact dyadic rational, so the model is exact here. -/
def npDouble (seed i : ℕ) : ℚ := ((npRaw seed i >>> 11 : ℕ) : ℚ) / 9007199254740992

/-- Python `int()` on a float argument truncates toward zero; here on an
exact rational. -/
def pytrunc (x : ℚ) : ℤ := x.num.sign * ((x.num.natAbs / x.den : ℕ) : ℤ)

namespace M2

/-!
`src/lib/merra2_data_service.py`, class `MERRA2DataService`.

Weather data dictionaries (`Dict[str, float]`) are association lists
`List (String × ℚ)`.  The wind-speed value `np.sqrt(U10M**2 + V10M**2)`
is irrational in general, so `calculate_weather_risks` receives it as the
extra argument `wind_speed`; theorems that depend on it constrain it by
`0 ≤ wind_speed` and `wind_speed * wind_speed = u * u + v * v`.
-/

/-- The five fixed risk category names, in the order of the final
completeness loop of `calculate_weather_risks` (lines 177-179). -/
def riskTypes : List String :=
  ["very_hot", "very_cold", "very_windy", "very_wet", "very_uncomfortable"]

/-- Lines 150-156: the two temperature risks, inserted only when `T2M` is
present. -/
def tempRisks : Option ℚ → List (String × ℚ)
  | some t =>
    let temp_c := t - 273.15
    [("very_hot", max 0 (min 100 ((temp_c - 35) * 5))),
     ("very_cold", max 0 (min 100 ((0 - temp_c) * 5)))]
  | none => []

/-- Lines 158-161: the wind risk, inserted only when both `U10M` and
`V10M` are present; `wind_speed` stands for `np.sqrt(U10M**2 + V10M**2)`. -/
def windRisks (wind_speed : ℚ) : Option ℚ → Option ℚ → List (String × ℚ)
  | some _, some _ => [("very_windy", max 0 (min 100 ((wind_speed - 10) * 8)))]
  | _, _ => []

/-- Lines 163-165: the precipitation risk, inserted only when `PRECTOT` is
present (`precip = PRECTOT * 3600`, risk `= precip * 20` clamped). -/
def wetRisks : Option ℚ → List (String × ℚ)
  | some p =>
    let precip := p * 3600
    [("very_wet", max 0 (min 100 (precip * 20)))]
  | none => []

/-- Lines 167-174: the discomfort risk, inserted only when both `QV2M` and
`T2M` are present. -/
def comfortRisks : Option ℚ → Option ℚ → List (String × ℚ)
  | some q, some t =>
    let temp_c := t - 273.15
    let discomfort := temp_c + q * 1000
    [("very_uncomfortable", max 0 (min 100 ((discomfort - 25) * 3)))]
  | _, _ => []

/-- `MERRA2DataService.calculate_weather_risks` (lines 138-181): the four
conditional dict inserts in order, then the completeness loop that adds a
0.0 entry for every category key still missing. -/
def calculate_weather_risks (wd : List (String × ℚ)) (wind_speed : ℚ) :
    List (String × ℚ) :=
  let risks :=
    tempRisks (wd.lookup "T2M") ++
    windRisks wind_speed (wd.lookup "U10M") (wd.lookup "V10M") ++
    wetRisks (wd.lookup "PRECTOT") ++
    comfortRisks (wd.lookup "QV2M") (wd.lookup "T2M")
  risks ++ (riskTypes.filter fun n => (risks.lookup n).isNone).map fun n => (n, (0 : ℚ))

/-- Line 230: `seed = int(abs(lat * 1000) + abs(lon * 1000) + day_of_year)`:
Python `int()` truncation applied to the whole sum. -/
def fallback_seed (lat lon : ℚ) (day_of_year : ℕ) : ℤ :=
  pytrunc (|lat * 1000| + |lon * 1000| + (day_of_year : ℚ))

/-- Modelled from the spec words of claim C4 (for the refinement
comparison only): `seed = floor(|lat|*1000) + floor(|lon|*1000) +
day_of_year`, each coordinate term floored individually before
summation. -/
def spec_claimed_seed (lat lon : ℚ) (day_of_year : ℕ) : ℤ :=
  ⌊|lat| * 1000⌋ + ⌊|lon| * 1000⌋ + (day_of_year : ℤ)

/-- Lines 233-239: the five probabilities drawn from
`np.random.default_rng(seed)`: `uniform(0, b) = b * next_double`, one
double per call, in the fixed insertion order. -/
def fallbackRiskVector (seed : ℕ) : List (String × ℚ) :=
  [("very_hot", 50 * npDouble seed 0),
   ("very_cold", 50 * npDouble seed 1),
   ("very_windy", 40 * npDouble seed 2),
   ("very_wet", 60 * npDouble seed 3),
   ("very_uncomfortable", 45 * npDouble seed 4)]

/-- The response envelope of `get_weather_probabilities` and
`_fallback_probabilities`: the `meta` fields that differ between the two
paths, the probabilities dict, and the optional `raw_data`. -/
structure Envelope where
  lat : ℚ
  lon : ℚ
  day_of_year : ℕ
  data_source : String
  note : Option String
  variables_used : Option (List String)
  raw_data : Option (List (String × ℚ))
  probabilities : List (String × ℚ)
deriving DecidableEq

/-- `MERRA2DataService._fallback_probabilities` (lines 222-250): the
deterministic seed, the five seeded uniform draws, and the envelope with
`data_source = "fallback"`.  The seed is nonnegative (absolute values plus
a day count), so `Int.toNat` is exact. -/
def _fallback_probabilities (lat lon : ℚ) (day_of_year : ℕ) : Envelope :=
  { lat := lat, lon := lon, day_of_year := day_of_year,
    data_source := "fallback",
    note := some "MERRA-2 data unavailable, using synthetic data",
    variables_used := none, raw_data := none,
    probabilities := fallbackRiskVector (fallback_seed lat lon day_of_year).toNat }

/-- `MERRA2DataService.get_weather_probabilities` (lines 183-220).  The
external MERRA-2 provider (`get_weather_data`) is the parameter `fetch`:
`none` models the primary data path raising (caught by the enclosing
`except`), and `some wd` its returned dictionary, which falls back when
falsy (empty). -/
def get_weather_probabilities (fetch : Option (List (String × ℚ)))
    (wind_speed : ℚ) (lat lon : ℚ) (day_of_year : ℕ) : Envelope :=
  match fetch with
  | none => _fallback_probabilities lat lon day_of_year
  | some wd =>
    if wd.isEmpty then _fallback_probabilities lat lon day_of_year
    else
      { lat := lat, lon := lon, day_of_year := day_of_year,
        data_source := "MERRA-2", note := none,
        variables_used := some (wd.map Prod.fst),
        raw_data := some wd,
        probabilities := calculate_weather_risks wd wind_speed }

end M2

/-- Sum of the values of a risk dictionary. -/
def probSum : List (String × ℚ) → ℚ
  | [] => 0
  | p :: rest => p.2 + probSum rest

namespace WM

/-!
`src/lib/weather_model.py`.

A pandas daily row is a record of optional fields; `dropna` on a column is
`filterMap`.  The external pieces are parameters: `fit` models
`scipy.stats.norm.fit` (theorems characterise its value as the sample
mean together with the nonnegative square root of the population
variance, which is what the normal MLE returns), and `cdf x loc scale`
models `scipy.stats.norm.cdf(x, loc=..., scale=...)`.
-/

/-- One row of the meteostat daily dataframe: the date's month/day and the
four optional observation fields used by `probability_calculator`. -/
structure DailyRecord where
  month : ℕ
  day : ℕ
  tmin : Option ℚ
  tmax : Option ℚ
  prcp : Option ℚ
  wspd : Option ℚ
deriving DecidableEq

/-- `np.clip(v, 0, 1)`. -/
def clip01 (x : ℚ) : ℚ := max 0 (min 1 x)

/-- Rounding to the nearest integer, ties to even — the rounding mode of
`np.around`. -/
def round_half_even (x : ℚ) : ℤ :=
  let n := ⌊x⌋
  let r := x - n
  if r < 1 / 2 then n
  else if 1 / 2 < r then n + 1
  else if n % 2 = 0 then n else n + 1

/-- `np.around(v, 1)`: round to one decimal place, ties to even. -/
def around1 (x : ℚ) : ℚ := ((round_half_even (x * 10) : ℤ) : ℚ) / 10

/-- Python division by a length: `ZeroDivisionError` (modelled as `none`)
when the denominator is zero. -/
def pydiv (a : ℚ) (b : ℕ) : Option ℚ :=
  if b = 0 then none else some (a / (b : ℚ))

/-- Sample mean (the `loc` that `scipy.stats.norm.fit` returns). -/
def listMean (l : List ℚ) : ℚ := l.sum / (l.length : ℚ)

/-- Population variance (the square of the `scale` that
`scipy.stats.norm.fit` returns). -/
def listPVar (l : List ℚ) : ℚ :=
  ((l.map fun x => (x - listMean l) ^ 2).sum) / (l.length : ℚ)

/-- `probability_calculator` (`weather_model.py` lines 80-143): drops
missing values per field, fits the three normal distributions, and
returns `[hot, cold, rainy, windy]` — clamp to `[0,1]`, times 100,
rounded to one decimal.  The rainy entry is
`sum(rainy_days) / len(rainy_days)`, which raises `ZeroDivisionError`
(here `none`) when there are no precipitation observations; an empty
input also gives `scipy.stats.norm.fit` nothing to fit. -/
def probability_calculator (fit : List ℚ → ℚ × ℚ) (cdf : ℚ → ℚ → ℚ → ℚ)
    (data : List DailyRecord) : Option (List ℚ) :=
  let hot_threshold : ℚ := 30
  let cold_threshold : ℚ := 0
  let windspeed_threshold : ℚ := 20
  let rainy_threshold : ℚ := 1
  let min_temp := data.filterMap (·.tmin)
  let max_temp := data.filterMap (·.tmax)
  let prcp := data.filterMap (·.prcp)
  let windspeed := data.filterMap (·.wspd)
  let rainy_days := prcp.map fun rain_amount =>
    if rainy_threshold ≤ rain_amount then (1 : ℚ) else 0
  let (max_mu, max_sigma) := fit max_temp
  let (wind_mu, wind_sigma) := fit windspeed
  let (cold_mu, cold_sigma) := fit min_temp
  match pydiv rainy_days.sum rainy_days.length with
  | none => none
  | some rainy_frac =>
    some [around1 (clip01 (1 - cdf hot_threshold max_mu max_sigma) * 100),
          around1 (clip01 (cdf cold_threshold cold_mu cold_sigma) * 100),
          around1 (clip01 rainy_frac * 100),
          around1 (clip01 (1 - cdf windspeed_threshold wind_mu wind_sigma) * 100)]

/-- The `meta` dictionary that `weather_model.get_weather_probabilities`
returns on its two successful paths. -/
structure Envelope where
  lat : ℚ
  lon : ℚ
  data_source : String
  error : Option String
  historical_records_found : Option ℕ
  hot_prob : Option ℚ
  cold_prob : Option ℚ
  too_rainy : Option ℚ
  too_windy : Option ℚ
deriving DecidableEq

/-- `weather_model.get_weather_probabilities` (lines 147-195).  The
meteostat provider is the parameter `daily_data` (`none` when no station
is found); the target month/day come from the validated date string.  The
call into `probability_calculator` is not guarded by any `try`, so a
failure there (modelled `none`) escapes the function: the overall result
`none` models an uncaught exception. -/
def get_weather_probabilities (fit : List ℚ → ℚ × ℚ) (cdf : ℚ → ℚ → ℚ → ℚ)
    (daily_data : Option (List DailyRecord)) (lat lon : ℚ)
    (target_month target_day : ℕ) : Option Envelope :=
  match daily_data with
  | none =>
    some { lat := lat, lon := lon, data_source := "meteostat",
           error := some "No data available for this location",
           historical_records_found := none, hot_prob := none,
           cold_prob := none, too_rainy := none, too_windy := none }
  | some records =>
    if records.isEmpty then
      some { lat := lat, lon := lon, data_source := "meteostat",
             error := some "No data available for this location",
             historical_records_found := none, hot_prob := none,
             cold_prob := none, too_rainy := none, too_windy := none }
    else
      let matching := records.filter fun r =>
        r.month == target_month && r.day == target_day
      match probability_calculator fit cdf matching with
      | none => none
      | some [too_hot, too_cold, too_rainy, too_windy] =>
        some { lat := lat, lon := lon, data_source := "meteostat",
               error := none,
               historical_records_found := some matching.length,
               hot_prob := some too_hot, cold_prob := some too_cold,
               too_rainy := some too_rainy, too_windy := some too_windy }
      | some _ => none

end WM

/-! Helper lemmas. -/

/-- Python `int()` truncation agrees with the floor on nonnegative
arguments. -/
theorem pytrunc_eq_floor (x : ℚ) (hx : 0 ≤ x) : pytrunc x = ⌊x⌋ := by
  rw [Rat.floor_def, pytrunc]
  have hnum : 0 ≤ x.num := Rat.num_nonneg.mpr hx
  rcases lt_or_eq_of_le hnum with h | h
  · rw [Int.sign_eq_one_of_pos h, one_mul]
    calc ((x.num.natAbs / x.den : ℕ) : ℤ)
        = (x.num.natAbs : ℤ) / (x.den : ℤ) := Int.ofNat_tdiv _ _
      _ = x.num / (x.den : ℤ) := by rw [Int.natAbs_of_nonneg hnum]
  · rw [← h]
    simp

/-- The clamp `max(0, min(100, x))` is nonnegative. -/
theorem clamp_nonneg (x : ℚ) : 0 ≤ max 0 (min 100 x) := le_max_left 0 _

/-- The clamp `max(0, min(100, x))` is at most 100. -/
theorem clamp_le (x : ℚ) : max 0 (min 100 x) ≤ 100 :=
  max_le (by norm_num) (min_le_left _ _)

/-- The clamp of a nonpositive value is 0. -/
theorem clamp_eq_zero {x : ℚ} (h : x ≤ 0) : max 0 (min 100 x) = 0 :=
  max_eq_left ((min_le_right _ _).trans h)

/-- A positive clamp forces a positive argument. -/
theorem clamp_pos {x : ℚ} (h : 0 < max 0 (min 100 x)) : 0 < x := by
  by_contra hx
  rw [clamp_eq_zero (le_of_not_lt hx)] at h
  exact lt_irrefl 0 h

/-- The PCG64 state is always reduced below 2^128 after a step. -/
theorem pcgStateAfter_lt (seed i : ℕ) :
    pcgStateAfter seed (i + 1) < 2 ^ 128 := by
  show pcgStep _ _ < 2 ^ 128
  unfold pcgStep u128
  exact Nat.mod_lt _ (by norm_num)

/-- Raw PCG64 outputs are 64-bit values. -/
theorem npRaw_lt (seed i : ℕ) : npRaw seed i < 2 ^ 64 := by
  unfold npRaw pcgOutput rotr64
  have hs := pcgStateAfter_lt seed i
  set s := pcgStateAfter seed (i + 1) with hsdef
  have h1 : s >>> 64 < 2 ^ 64 := by
    rw [Nat.shiftRight_eq_div_pow]
    exact Nat.div_lt_of_lt_mul (by norm_num at hs ⊢; omega)
  have h2 : u64 s < 2 ^ 64 := Nat.mod_lt _ (by norm_num)
  have hx : (s >>> 64) ^^^ u64 s < 2 ^ 64 := Nat.xor_lt_two_pow h1 h2
  have hsh : ((s >>> 64) ^^^ u64 s) >>> (s >>> 122) ≤ (s >>> 64) ^^^ u64 s := by
    rw [Nat.shiftRight_eq_div_pow]
    exact Nat.div_le_self _ _
  exact Nat.or_lt_two_pow (lt_of_le_of_lt hsh hx) (Nat.mod_lt _ (by norm_num))

/-- Every double the modelled generator produces is nonnegative. -/
theorem npDouble_nonneg (seed i : ℕ) : 0 ≤ npDouble seed i := by
  unfold npDouble
  positivity

/-- Every double the modelled generator produces is below 1 (it is a
53-bit integer over 2^53). -/
theorem npDouble_lt_one (seed i : ℕ) : npDouble seed i < 1 := by
  unfold npDouble
  rw [div_lt_one (by norm_num)]
  have h : npRaw seed i >>> 11 < 2 ^ 53 := by
    rw [Nat.shiftRight_eq_div_pow]
    refine Nat.div_lt_of_lt_mul ?_
    have := npRaw_lt seed i
    norm_num at this ⊢
    omega
  exact_mod_cast h

/-- The code's seed is the floor of the whole sum
`|lat|*1000 + |lon|*1000 + day_of_year` (Python `int()` truncates toward
zero, and the argument is nonnegative). -/
theorem fallback_seed_floor (lat lon : ℚ) (day_of_year : ℕ) :
    M2.fallback_seed lat lon day_of_year =
    ⌊|lat| * 1000 + |lon| * 1000 + (day_of_year : ℚ)⌋ := by
  unfold M2.fallback_seed
  rw [pytrunc_eq_floor _ (by positivity), abs_mul, abs_mul]
  norm_num

/-! Claim theorems. -/

/-- Claim C1 (counterexample): at a concrete failed query (the provider
raised, modelled by `fetch = none`), the orchestration layer's envelope
carries `data_source = "fallback"`, not the string `"synthetic"` the claim
requires. -/
theorem c1_data_source_cex :
    ¬ (M2.get_weather_probabilities none 0 0 0 1).data_source = "synthetic" := by
  decide

/-- Claim C1 (amended): for every query whose primary data path fails
(the provider raises, or returns an empty weather-data mapping), the
returned envelope has `meta.data_source` equal to the string `"fallback"`
(the envelope's note calls it synthetic data, but the tag itself is
`"fallback"`), together with a RiskVector populated for all five
categories. -/
theorem c1_fallback_envelope (fetch : Option (List (String × ℚ)))
    (wind_speed lat lon : ℚ) (day_of_year : ℕ)
    (h : fetch = none ∨ fetch = some []) :
    (M2.get_weather_probabilities fetch wind_speed lat lon day_of_year).data_source
      = "fallback" ∧
    (M2.get_weather_probabilities fetch wind_speed lat lon day_of_year).probabilities.map
      Prod.fst = M2.riskTypes := by
  rcases h with h | h <;> subst h <;>
    simp [M2.get_weather_probabilities, M2._fallback_probabilities,
      M2.fallbackRiskVector, M2.riskTypes]

/-- Claim C1 (witness): the amended theorem applied to the concrete failed
query `fetch = none`, `lat = 0`, `lon = 0`, `day = 1`. -/
theorem c1_fallback_envelope_witness :
    (M2.get_weather_probabilities none 0 0 0 1).data_source = "fallback" ∧
    (M2.get_weather_probabilities none 0 0 0 1).probabilities.map Prod.fst
      = M2.riskTypes :=
  c1_fallback_envelope none 0 0 0 1 (Or.inl rfl)

/-- Claim C3 (confirmed, strengthened to the seed): the synthetic
RiskVector is a pure function of the per-call seed, which is computed from
the query parameters alone — no process-wide generator state and no
wall-clock input appear anywhere in the embedding, mirroring the source,
which builds a fresh `np.random.default_rng(seed)` per call.  Two calls
with identical `(lat, lon, day_of_year)` therefore produce identical
RiskVectors. -/
theorem c3_synthetic_deterministic (lat lon : ℚ) (day_of_year : ℕ)
    (lat2 lon2 : ℚ) (day2 : ℕ)
    (h : M2.fallback_seed lat lon day_of_year = M2.fallback_seed lat2 lon2 day2) :
    (M2._fallback_probabilities lat lon day_of_year).probabilities =
    (M2._fallback_probabilities lat2 lon2 day2).probabilities := by
  simp only [M2._fallback_probabilities, h]

/-- Claim C3 (witness): two concrete queries with equal seeds — in
particular a query compared with itself — give identical RiskVectors. -/
theorem c3_synthetic_deterministic_witness :
    M2.fallback_seed 0 0 5 = M2.fallback_seed (1 / 1000) 0 4 ∧
    (M2._fallback_probabilities 0 0 5).probabilities =
      (M2._fallback_probabilities (1 / 1000) 0 4).probabilities := by
  have h : M2.fallback_seed 0 0 5 = M2.fallback_seed (1 / 1000) 0 4 := by
    rw [fallback_seed_floor, fallback_seed_floor]
    norm_num [abs_of_pos]
  exact ⟨h, c3_synthetic_deterministic 0 0 5 (1 / 1000) 0 4 h⟩

/-- Claim C4 (counterexample): at `lat = 1/2048`, `lon = 1/1024`,
`day = 1` the code's seed `int(|lat*1000| + |lon*1000| + day) = 2`
differs from the claimed per-term-floor formula
`floor(|lat|*1000) + floor(|lon|*1000) + day = 1`. -/
theorem c4_seed_formula_cex :
    M2.fallback_seed (1 / 2048) (1 / 1024) 1 ≠
    M2.spec_claimed_seed (1 / 2048) (1 / 1024) 1 := by
  rw [fallback_seed_floor]
  unfold M2.spec_claimed_seed
  norm_num [abs_of_pos]

/-- Claim C4 (amended): the synthetic estimator's seed equals
`floor(|lat|*1000 + |lon|*1000 + day_of_year)` — Python `int()`
truncation (equal to the floor, since the argument is nonnegative) applied
to the whole sum, not to each coordinate term individually. -/
theorem c4_seed_formula (lat lon : ℚ) (day_of_year : ℕ) :
    M2.fallback_seed lat lon day_of_year =
    ⌊|lat| * 1000 + |lon| * 1000 + (day_of_year : ℚ)⌋ :=
  fallback_seed_floor lat lon day_of_year

/-- Claim C2 (counterexample): at the valid input `lat = 0`, `lon = 0`,
`day_of_year = 1` (seed 1) the five synthetic percentages sum to
337391743382797035/2251799813685248 ≈ 149.83, far outside 100 ± 0.02:
the code draws scaled uniform values and applies no softmax and no
normalization.  (The dyadic doubles are modelled exactly; the only
float rounding in the source, the multiplication by the ranges, differs
from exact arithmetic by less than 2^-40, irrelevant at this
tolerance.) -/
theorem c2_softmax_normalization_cex :
    ¬ |probSum (M2._fallback_probabilities 0 0 1).probabilities - 100| ≤ 2 / 100 := by
  have hseed : M2.fallback_seed 0 0 1 = 1 := by
    rw [fallback_seed_floor]
    norm_num
  have h0 : npRaw 1 0 >>> 11 = 4610079356560476 := by decide
  have h1 : npRaw 1 1 >>> 11 = 8561015897205333 := by decide
  have h2 : npRaw 1 2 >>> 11 = 1298474356252035 := by decide
  have h3 : npRaw 1 3 >>> 11 = 8544674593265037 := by decide
  have h4 : npRaw 1 4 >>> 11 = 2808728022153646 := by decide
  simp only [probSum, M2._fallback_probabilities, M2.fallbackRiskVector, npDouble, hseed,
    Int.toNat_one, h0, h1, h2, h3, h4]
  rw [not_le]
  refine lt_abs.mpr (Or.inl ?_)
  norm_num

/-- Claim C2 (amended): the synthetic estimator draws five uniform values
scaled to the ranges `[0,50)`, `[0,50)`, `[0,40)`, `[0,60)`, `[0,45)` from
the seeded generator; the outputs are not normalized — for every input the
five percentages sum to a value in `[0, 245)`, not to 100 ± 0.02. -/
theorem c2_synthetic_sum_range (lat lon : ℚ) (day_of_year : ℕ) :
    0 ≤ probSum (M2._fallback_probabilities lat lon day_of_year).probabilities ∧
    probSum (M2._fallback_probabilities lat lon day_of_year).probabilities < 245 := by
  simp only [probSum, M2._fallback_probabilities, M2.fallbackRiskVector]
  have d0 := npDouble_nonneg (M2.fallback_seed lat lon day_of_year).toNat 0
  have d1 := npDouble_nonneg (M2.fallback_seed lat lon day_of_year).toNat 1
  have d2 := npDouble_nonneg (M2.fallback_seed lat lon day_of_year).toNat 2
  have d3 := npDouble_nonneg (M2.fallback_seed lat lon day_of_year).toNat 3
  have d4 := npDouble_nonneg (M2.fallback_seed lat lon day_of_year).toNat 4
  have e0 := npDouble_lt_one (M2.fallback_seed lat lon day_of_year).toNat 0
  have e1 := npDouble_lt_one (M2.fallback_seed lat lon day_of_year).toNat 1
  have e2 := npDouble_lt_one (M2.fallback_seed lat lon day_of_year).toNat 2
  have e3 := npDouble_lt_one (M2.fallback_seed lat lon day_of_year).toNat 3
  have e4 := npDouble_lt_one (M2.fallback_seed lat lon day_of_year).toNat 4
  constructor
  · linarith
  · linarith

/-- Claim C5 (confirmed): for a GridSample containing all required
variables, the grid-sample estimator computes exactly the five clamped
transfer functions of the claim, with `wind_speed` the nonnegative square
root of `U10M^2 + V10M^2`. -/
theorem c5_grid_transfer_functions (wd : List (String × ℚ))
    (wind_speed t u v p q : ℚ)
    (hT : wd.lookup "T2M" = some t) (hU : wd.lookup "U10M" = some u)
    (hV : wd.lookup "V10M" = some v) (hP : wd.lookup "PRECTOT" = some p)
    (hQ : wd.lookup "QV2M" = some q)
    (_hw0 : 0 ≤ wind_speed) (_hw : wind_speed * wind_speed = u * u + v * v) :
    M2.calculate_weather_risks wd wind_speed =
      [("very_hot", max 0 (min 100 ((t - 273.15 - 35) * 5))),
       ("very_cold", max 0 (min 100 ((0 - (t - 273.15)) * 5))),
       ("very_windy", max 0 (min 100 ((wind_speed - 10) * 8))),
       ("very_wet", max 0 (min 100 (p * 3600 * 20))),
       ("very_uncomfortable", max 0 (min 100 ((t - 273.15 + q * 1000 - 25) * 3)))] := by
  simp only [M2.calculate_weather_risks, M2.tempRisks, M2.windRisks, M2.wetRisks,
    M2.comfortRisks, M2.riskTypes, hT, hU, hV, hP, hQ]
  simp [List.lookup]

/-- Claim C5 (witness): the spec's concrete scenario
`T2M = 310.15, U10M = 8, V10M = 6, PRECTOT = 0.001, QV2M = 0.02` (so
`wind_speed = sqrt(64 + 36) = 10`) yields `very_hot = 10.0`,
`very_windy = 0.0`, `very_wet = 72.0` (and `very_cold = 0.0`,
`very_uncomfortable = 96.0`). -/
theorem c5_grid_transfer_functions_witness :
    M2.calculate_weather_risks
      [("T2M", 310.15), ("U10M", 8), ("V10M", 6), ("PRECTOT", 0.001), ("QV2M", 0.02)] 10 =
      [("very_hot", 10), ("very_cold", 0), ("very_windy", 0), ("very_wet", 72),
       ("very_uncomfortable", 96)] := by
  have h := c5_grid_transfer_functions
    [("T2M", 310.15), ("U10M", 8), ("V10M", 6), ("PRECTOT", 0.001), ("QV2M", 0.02)]
    10 310.15 8 6 0.001 0.02 rfl rfl rfl rfl rfl (by norm_num) (by norm_num)
  rw [h]
  norm_num [max_def, min_def]

/-- Elements contributed by the temperature block are clamped to
`[0, 100]`. -/
theorem mem_tempRisks {o : Option ℚ} {pr : String × ℚ}
    (h : pr ∈ M2.tempRisks o) : 0 ≤ pr.2 ∧ pr.2 ≤ 100 := by
  cases o with
  | none => simp [M2.tempRisks] at h
  | some t =>
    simp only [M2.tempRisks, List.mem_cons, List.not_mem_nil, or_false] at h
    rcases h with rfl | rfl
    · exact ⟨clamp_nonneg _, clamp_le _⟩
    · exact ⟨clamp_nonneg _, clamp_le _⟩

/-- Elements contributed by the wind block are clamped to `[0, 100]`. -/
theorem mem_windRisks {s : ℚ} {o1 o2 : Option ℚ} {pr : String × ℚ}
    (h : pr ∈ M2.windRisks s o1 o2) : 0 ≤ pr.2 ∧ pr.2 ≤ 100 := by
  cases o1 <;> cases o2 <;> simp [M2.windRisks] at h
  subst h
  exact ⟨clamp_nonneg _, clamp_le _⟩

/-- Elements contributed by the precipitation block are clamped to
`[0, 100]`. -/
theorem mem_wetRisks {o : Option ℚ} {pr : String × ℚ}
    (h : pr ∈ M2.wetRisks o) : 0 ≤ pr.2 ∧ pr.2 ≤ 100 := by
  cases o <;> simp [M2.wetRisks] at h
  subst h
  exact ⟨clamp_nonneg _, clamp_le _⟩

/-- Elements contributed by the discomfort block are clamped to
`[0, 100]`. -/
theorem mem_comfortRisks {o1 o2 : Option ℚ} {pr : String × ℚ}
    (h : pr ∈ M2.comfortRisks o1 o2) : 0 ≤ pr.2 ∧ pr.2 ≤ 100 := by
  cases o1 <;> cases o2 <;> simp [M2.comfortRisks] at h
  subst h
  exact ⟨clamp_nonneg _, clamp_le _⟩

/-- Claim C6 (confirmed): every value of the grid-sample estimator's
output RiskVector lies within `[0, 100]`, for arbitrary (finite) input
magnitudes — each computed entry is clamped by `max(0, min(100, ·))` and
each default entry is 0. -/
theorem c6_grid_output_bounded (wd : List (String × ℚ)) (wind_speed : ℚ)
    (pr : String × ℚ) (h : pr ∈ M2.calculate_weather_risks wd wind_speed) :
    0 ≤ pr.2 ∧ pr.2 ≤ 100 := by
  simp only [M2.calculate_weather_risks, List.mem_append] at h
  rcases h with ((((h | h) | h) | h) | h)
  · exact mem_tempRisks h
  · exact mem_windRisks h
  · exact mem_wetRisks h
  · exact mem_comfortRisks h
  · simp only [List.mem_map] at h
    obtain ⟨n, hn, rfl⟩ := h
    norm_num

/-- Claim C6 (witness): the extreme sample `T2M = 400` produces the entry
`very_hot = 100.0` (clamped, not above 100), and the theorem bounds it. -/
theorem c6_grid_output_bounded_witness :
    ("very_hot", (100 : ℚ)) ∈ M2.calculate_weather_risks [("T2M", 400)] 0 ∧
    0 ≤ (("very_hot", (100 : ℚ)) : String × ℚ).2 ∧
      (("very_hot", (100 : ℚ)) : String × ℚ).2 ≤ 100 := by
  have hv : max (0 : ℚ) (min 100 (((400 : ℚ) - 273.15 - 35) * 5)) = 100 := by
    norm_num [max_def, min_def]
  have hlist : M2.calculate_weather_risks [("T2M", 400)] 0 =
      [("very_hot", max 0 (min 100 (((400 : ℚ) - 273.15 - 35) * 5))),
       ("very_cold", max 0 (min 100 ((0 - ((400 : ℚ) - 273.15)) * 5))),
       ("very_windy", 0), ("very_wet", 0), ("very_uncomfortable", 0)] := rfl
  have hmem : ("very_hot", (100 : ℚ)) ∈ M2.calculate_weather_risks [("T2M", 400)] 0 := by
    rw [show (("very_hot", (100 : ℚ)) : String × ℚ)
        = ("very_hot", max 0 (min 100 (((400 : ℚ) - 273.15 - 35) * 5))) by rw [hv], hlist]
    exact List.mem_cons_self _ _
  exact ⟨hmem, c6_grid_output_bounded [("T2M", 400)] 0 ("very_hot", 100) hmem⟩

set_option maxHeartbeats 2000000 in
/-- The key list of the grid-sample output is always a permutation of the
five fixed category names, whatever subset of inputs is present. -/
theorem calc_keys_perm (wd : List (String × ℚ)) (wind_speed : ℚ) :
    ((M2.calculate_weather_risks wd wind_speed).map Prod.fst).Perm M2.riskTypes := by
  cases hT : List.lookup "T2M" wd <;> cases hU : List.lookup "U10M" wd <;>
    cases hV : List.lookup "V10M" wd <;> cases hP : List.lookup "PRECTOT" wd <;>
    cases hQ : List.lookup "QV2M" wd <;>
    simp only [M2.calculate_weather_risks, M2.tempRisks, M2.windRisks, M2.wetRisks,
      M2.comfortRisks, M2.riskTypes, hT, hU, hV, hP, hQ] <;>
    simp [List.lookup] <;> decide

/-- When `T2M` is missing, the temperature-dependent categories are
present with value 0. -/
theorem calc_missing_temp (wd : List (String × ℚ)) (wind_speed : ℚ)
    (hT : List.lookup "T2M" wd = none) :
    (M2.calculate_weather_risks wd wind_speed).lookup "very_hot" = some 0 ∧
    (M2.calculate_weather_risks wd wind_speed).lookup "very_cold" = some 0 ∧
    (M2.calculate_weather_risks wd wind_speed).lookup "very_uncomfortable" = some 0 := by
  cases hU : List.lookup "U10M" wd <;> cases hV : List.lookup "V10M" wd <;>
    cases hP : List.lookup "PRECTOT" wd <;> cases hQ : List.lookup "QV2M" wd <;>
    simp only [M2.calculate_weather_risks, M2.tempRisks, M2.windRisks, M2.wetRisks,
      M2.comfortRisks, M2.riskTypes, hT, hU, hV, hP, hQ] <;>
    simp [List.lookup]

/-- When `U10M` or `V10M` is missing, `very_windy` is present with
value 0. -/
theorem calc_missing_wind (wd : List (String × ℚ)) (wind_speed : ℚ)
    (h : List.lookup "U10M" wd = none ∨ List.lookup "V10M" wd = none) :
    (M2.calculate_weather_risks wd wind_speed).lookup "very_windy" = some 0 := by
  rcases h with h | h
  · cases hT : List.lookup "T2M" wd <;> cases hV : List.lookup "V10M" wd <;>
      cases hP : List.lookup "PRECTOT" wd <;> cases hQ : List.lookup "QV2M" wd <;>
      simp only [M2.calculate_weather_risks, M2.tempRisks, M2.windRisks, M2.wetRisks,
        M2.comfortRisks, M2.riskTypes, hT, h, hV, hP, hQ] <;>
      simp [List.lookup]
  · cases hT : List.lookup "T2M" wd <;> cases hU : List.lookup "U10M" wd <;>
      cases hP : List.lookup "PRECTOT" wd <;> cases hQ : List.lookup "QV2M" wd <;>
      simp only [M2.calculate_weather_risks, M2.tempRisks, M2.windRisks, M2.wetRisks,
        M2.comfortRisks, M2.riskTypes, hT, hU, h, hP, hQ] <;>
      simp [List.lookup]

/-- When `PRECTOT` is missing, `very_wet` is present with value 0. -/
theorem calc_missing_wet (wd : List (String × ℚ)) (wind_speed : ℚ)
    (hP : List.lookup "PRECTOT" wd = none) :
    (M2.calculate_weather_risks wd wind_speed).lookup "very_wet" = some 0 := by
  cases hT : List.lookup "T2M" wd <;> cases hU : List.lookup "U10M" wd <;>
    cases hV : List.lookup "V10M" wd <;> cases hQ : List.lookup "QV2M" wd <;>
    simp only [M2.calculate_weather_risks, M2.tempRisks, M2.windRisks, M2.wetRisks,
      M2.comfortRisks, M2.riskTypes, hT, hU, hV, hP, hQ] <;>
    simp [List.lookup]

/-- When `QV2M` is missing, `very_uncomfortable` is present with
value 0. -/
theorem calc_missing_humidity (wd : List (String × ℚ)) (wind_speed : ℚ)
    (hQ : List.lookup "QV2M" wd = none) :
    (M2.calculate_weather_risks wd wind_speed).lookup "very_uncomfortable" = some 0 := by
  cases hT : List.lookup "T2M" wd <;> cases hU : List.lookup "U10M" wd <;>
    cases hV : List.lookup "V10M" wd <;> cases hP : List.lookup "PRECTOT" wd <;>
    simp only [M2.calculate_weather_risks, M2.tempRisks, M2.windRisks, M2.wetRisks,
      M2.comfortRisks, M2.riskTypes, hT, hU, hV, hP, hQ] <;>
    simp [List.lookup]

/-- Claim C7 (confirmed): for every GridSample, including partial ones,
the grid-sample output contains exactly the five fixed category keys (its
key list is a permutation of them), and a category whose required input
variables are absent is present with value 0.0 rather than omitted. -/
theorem c7_grid_output_complete (wd : List (String × ℚ)) (wind_speed : ℚ) :
    ((M2.calculate_weather_risks wd wind_speed).map Prod.fst).Perm M2.riskTypes ∧
    (wd.lookup "T2M" = none →
      (M2.calculate_weather_risks wd wind_speed).lookup "very_hot" = some 0 ∧
      (M2.calculate_weather_risks wd wind_speed).lookup "very_cold" = some 0 ∧
      (M2.calculate_weather_risks wd wind_speed).lookup "very_uncomfortable" = some 0) ∧
    (wd.lookup "U10M" = none ∨ wd.lookup "V10M" = none →
      (M2.calculate_weather_risks wd wind_speed).lookup "very_windy" = some 0) ∧
    (wd.lookup "PRECTOT" = none →
      (M2.calculate_weather_risks wd wind_speed).lookup "very_wet" = some 0) ∧
    (wd.lookup "QV2M" = none →
      (M2.calculate_weather_risks wd wind_speed).lookup "very_uncomfortable" = some 0) :=
  ⟨calc_keys_perm wd wind_speed,
   fun hT => calc_missing_temp wd wind_speed hT,
   fun h => calc_missing_wind wd wind_speed h,
   fun hP => calc_missing_wet wd wind_speed hP,
   fun hQ => calc_missing_humidity wd wind_speed hQ⟩

/-- Claim C7 (witness): the theorem applied to the empty GridSample — all
five keys are present and each carries the default 0.0. -/
theorem c7_grid_output_complete_witness :
    ((M2.calculate_weather_risks [] 0).map Prod.fst).Perm M2.riskTypes ∧
    (M2.calculate_weather_risks [] 0).lookup "very_hot" = some 0 ∧
    (M2.calculate_weather_risks [] 0).lookup "very_windy" = some 0 ∧
    (M2.calculate_weather_risks [] 0).lookup "very_wet" = some 0 ∧
    (M2.calculate_weather_risks [] 0).lookup "very_uncomfortable" = some 0 := by
  have h := c7_grid_output_complete [] 0
  exact ⟨h.1, (h.2.1 rfl).1, h.2.2.1 (Or.inl rfl), h.2.2.2.1 rfl, h.2.2.2.2 rfl⟩

/-- Claim C10 (confirmed): when `T2M` is present, at most one of
`very_hot` and `very_cold` is strictly positive: both are clamped linear
functions of the same Celsius temperature with non-overlapping active
ranges (above 35 °C and below 0 °C). -/
theorem c10_hot_cold_exclusive (wd : List (String × ℚ)) (wind_speed t h c : ℚ)
    (hT : wd.lookup "T2M" = some t)
    (hh : (M2.calculate_weather_risks wd wind_speed).lookup "very_hot" = some h)
    (hc : (M2.calculate_weather_risks wd wind_speed).lookup "very_cold" = some c) :
    (0 < h → c = 0) ∧ (0 < c → h = 0) := by
  simp only [M2.calculate_weather_risks, M2.tempRisks, hT, List.cons_append,
    List.lookup] at hh hc
  simp only [show (("very_hot" == "very_hot") : Bool) = true from rfl,
    show (("very_cold" == "very_hot") : Bool) = false from rfl,
    show (("very_cold" == "very_cold") : Bool) = true from rfl,
    Option.some.injEq] at hh hc
  subst hh
  subst hc
  constructor
  · intro hpos
    have := clamp_pos hpos
    exact clamp_eq_zero (by linarith)
  · intro hpos
    have := clamp_pos hpos
    exact clamp_eq_zero (by linarith)

/-- Claim C10 (witness): at `T2M = 400` the outputs are
`very_hot = 100`, `very_cold = 0`, and the exclusivity holds. -/
theorem c10_hot_cold_exclusive_witness :
    (0 < (100 : ℚ) → (0 : ℚ) = 0) ∧ (0 < (0 : ℚ) → (100 : ℚ) = 0) := by
  have hv : max (0 : ℚ) (min 100 (((400 : ℚ) - 273.15 - 35) * 5)) = 100 := by
    norm_num [max_def, min_def]
  have hh : (M2.calculate_weather_risks [("T2M", 400)] 0).lookup "very_hot"
      = some 100 := by
    show some (max (0 : ℚ) (min 100 (((400 : ℚ) - 273.15 - 35) * 5))) = some 100
    rw [hv]
  have hc : (M2.calculate_weather_risks [("T2M", 400)] 0).lookup "very_cold"
      = some 0 := by
    show some (max (0 : ℚ) (min 100 ((0 - ((400 : ℚ) - 273.15)) * 5))) = some 0
    norm_num [max_def, min_def]
  exact c10_hot_cold_exclusive [("T2M", 400)] 0 400 100 0 rfl hh hc

/-- The indicator sum used for rainy days equals the count of
precipitation observations at or above the threshold. -/
theorem sum_indicator (l : List ℚ) :
    (l.map fun rain_amount => if (1 : ℚ) ≤ rain_amount then (1 : ℚ) else 0).sum =
    ((l.countP fun rain_amount => decide ((1 : ℚ) ≤ rain_amount)) : ℚ) := by
  induction l with
  | nil => simp
  | cons a t ih =>
    by_cases h : (1 : ℚ) ≤ a
    · rw [List.map_cons, List.sum_cons, List.countP_cons, ih, if_pos h,
        if_pos (decide_eq_true h)]
      push_cast
      ring
    · rw [List.map_cons, List.sum_cons, List.countP_cons, ih, if_neg h,
        if_neg (by simpa using h)]
      push_cast
      ring

/-- Claim C8 (code bug): when the filtered observation set is empty (no
record matches the target month/day), `probability_calculator` divides by
`len(rainy_days) = 0` — a `ZeroDivisionError` that
`get_weather_probabilities` does not catch (modelled by the `none`
result).  No insufficient-data signal and no synthetic fallback exist on
this path, contradicting the claim (and spec sections 4.3/7). -/
theorem c8_empty_filter_uncaught (fit : List ℚ → ℚ × ℚ) (cdf : ℚ → ℚ → ℚ → ℚ)
    (records : List WM.DailyRecord) (lat lon : ℚ) (target_month target_day : ℕ)
    (hne : records ≠ [])
    (hmatch : records.filter
      (fun r => r.month == target_month && r.day == target_day) = []) :
    WM.get_weather_probabilities fit cdf (some records) lat lon
      target_month target_day = none := by
  obtain ⟨r, rs, rfl⟩ := List.exists_cons_of_ne_nil hne
  simp only [WM.get_weather_probabilities, List.isEmpty_cons, Bool.false_eq_true,
    if_false, hmatch]
  simp [WM.probability_calculator, WM.pydiv]

/-- Claim C8 (witness): a concrete one-record dataset queried for
February 29 — the filter matches nothing and the call crashes
(`none`). -/
theorem c8_empty_filter_uncaught_witness :
    WM.get_weather_probabilities (fun _ => (0, 1)) (fun _ _ _ => 0)
      (some [⟨1, 15, some 5, some 10, some 0, some 3⟩]) 40 (-74) 2 29 = none :=
  c8_empty_filter_uncaught (fun _ => (0, 1)) (fun _ _ _ => 0)
    [⟨1, 15, some 5, some 10, some 0, some 3⟩] 40 (-74) 2 29
    (by simp) (by decide)

/-- Claim C9 (confirmed): for data whose per-field series are usable, the
historical estimator drops missing values independently per field, applies
the normal tail probabilities at thresholds 30 (upper, max-temperature),
0 (lower, min-temperature) and 20 (upper, wind-speed) with the fitted
`(mean, sqrt population variance)` parameters, uses the empirical
`count(precip ≥ 1)/count(precip)` frequency for rain, clamps each to
`[0,1]`, scales by 100 and rounds to one decimal — returning exactly the
four values `[very_hot, very_cold, very_wet, very_windy]` and no
`very_uncomfortable`. -/
theorem c9_historical_four_categories (fit : List ℚ → ℚ × ℚ)
    (cdf : ℚ → ℚ → ℚ → ℚ) (data : List WM.DailyRecord)
    (maxMu maxSigma coldMu coldSigma windMu windSigma : ℚ)
    (hfit_max : fit (data.filterMap (·.tmax)) = (maxMu, maxSigma))
    (_hmu_max : maxMu = WM.listMean (data.filterMap (·.tmax)))
    (_hsigma_max : 0 ≤ maxSigma ∧
      maxSigma ^ 2 = WM.listPVar (data.filterMap (·.tmax)))
    (hfit_cold : fit (data.filterMap (·.tmin)) = (coldMu, coldSigma))
    (_hmu_cold : coldMu = WM.listMean (data.filterMap (·.tmin)))
    (_hsigma_cold : 0 ≤ coldSigma ∧
      coldSigma ^ 2 = WM.listPVar (data.filterMap (·.tmin)))
    (hfit_wind : fit (data.filterMap (·.wspd)) = (windMu, windSigma))
    (_hmu_wind : windMu = WM.listMean (data.filterMap (·.wspd)))
    (_hsigma_wind : 0 ≤ windSigma ∧
      windSigma ^ 2 = WM.listPVar (data.filterMap (·.wspd)))
    (hprcp : data.filterMap (·.prcp) ≠ []) :
    WM.probability_calculator fit cdf data =
      some [WM.around1 (WM.clip01 (1 - cdf 30 maxMu maxSigma) * 100),
            WM.around1 (WM.clip01 (cdf 0 coldMu coldSigma) * 100),
            WM.around1 (WM.clip01
              ((((data.filterMap (·.prcp)).countP
                  fun rain_amount => decide ((1 : ℚ) ≤ rain_amount)) : ℚ) /
                ((data.filterMap (·.prcp)).length : ℚ)) * 100),
            WM.around1 (WM.clip01 (1 - cdf 20 windMu windSigma) * 100)] := by
  have hlen : (data.filterMap (·.prcp)).length ≠ 0 := by
    simpa [List.length_eq_zero] using hprcp
  simp only [WM.probability_calculator, hfit_max, hfit_cold, hfit_wind, WM.pydiv,
    List.length_map, hlen, if_false, sum_indicator]

/-- Claim C9 (witness): two concrete records (max temps 31/29, min temps
1/3, winds 19/21, precipitation 2/0) with the mean-and-unit-variance fit
and the constant-1/2 cdf give `some [50, 50, 50, 50]`. -/
theorem c9_historical_four_categories_witness :
    WM.probability_calculator (fun l => (WM.listMean l, 1)) (fun _ _ _ => 1 / 2)
      [⟨6, 1, some 1, some 31, some 2, some 19⟩,
       ⟨6, 1, some 3, some 29, some 0, some 21⟩] = some [50, 50, 50, 50] := by
  have e1 : (([⟨6, 1, some 1, some 31, some 2, some 19⟩,
      ⟨6, 1, some 3, some 29, some 0, some 21⟩] : List WM.DailyRecord).filterMap
      (·.tmax)) = [31, 29] := rfl
  have e2 : (([⟨6, 1, some 1, some 31, some 2, some 19⟩,
      ⟨6, 1, some 3, some 29, some 0, some 21⟩] : List WM.DailyRecord).filterMap
      (·.tmin)) = [1, 3] := rfl
  have e3 : (([⟨6, 1, some 1, some 31, some 2, some 19⟩,
      ⟨6, 1, some 3, some 29, some 0, some 21⟩] : List WM.DailyRecord).filterMap
      (·.wspd)) = [19, 21] := rfl
  have e4 : (([⟨6, 1, some 1, some 31, some 2, some 19⟩,
      ⟨6, 1, some 3, some 29, some 0, some 21⟩] : List WM.DailyRecord).filterMap
      (·.prcp)) = [2, 0] := rfl
  have hm1 : WM.listMean [(31 : ℚ), 29] = 30 := by norm_num [WM.listMean]
  have hm2 : WM.listMean [(1 : ℚ), 3] = 2 := by norm_num [WM.listMean]
  have hm3 : WM.listMean [(19 : ℚ), 21] = 20 := by norm_num [WM.listMean]
  have hv1 : (1 : ℚ) ^ 2 = WM.listPVar [(31 : ℚ), 29] := by
    norm_num [WM.listPVar, WM.listMean]
  have hv2 : (1 : ℚ) ^ 2 = WM.listPVar [(1 : ℚ), 3] := by
    norm_num [WM.listPVar, WM.listMean]
  have hv3 : (1 : ℚ) ^ 2 = WM.listPVar [(19 : ℚ), 21] := by
    norm_num [WM.listPVar, WM.listMean]
  have h := c9_historical_four_categories (fun l => (WM.listMean l, 1))
    (fun _ _ _ => 1 / 2)
    [⟨6, 1, some 1, some 31, some 2, some 19⟩,
     ⟨6, 1, some 3, some 29, some 0, some 21⟩]
    30 1 2 1 20 1
    (by simp only [e1, hm1]) (by rw [e1]; exact hm1.symm) ⟨by norm_num, by rw [e1]; exact hv1⟩
    (by simp only [e2, hm2]) (by rw [e2]; exact hm2.symm) ⟨by norm_num, by rw [e2]; exact hv2⟩
    (by simp only [e3, hm3]) (by rw [e3]; exact hm3.symm) ⟨by norm_num, by rw [e3]; exact hv3⟩
    (by rw [e4]; simp)
  rw [h, e4]
  norm_num [WM.around1, WM.clip01, WM.round_half_even, List.countP_cons, List.countP_nil,
    max_def, min_def]
